import Mathlib

/-!
Verification development for the media-transfer subsystem of the wapi
client library (package manager: the MediaManager and FlowManager media
operations), embedded shallowly in Lean.

The embedding translates the Go source:
  * JSON wire values and the parts of encoding/json semantics the
    operations rely on (struct unmarshalling with tag matching, zero
    values for absent fields, errors on type mismatches);
  * the multipart form construction of mime/multipart as a structural
    list of parts (header fields plus content);
  * each manager operation as a function of an abstract transport
    (the request_client collaborator, modelled from the spec) returning
    a Go-style (string, error) pair and threading the transport state.
-/

namespace Wapi

/-- JSON values as they appear on the wire.  Integral number literals are
kept exactly (constructor num); any other numeric literal (fraction or
exponent) is kept as its source text (constructor numOther), since
decoding such a literal into any field of the structs below fails, as it
does in Go. -/
inductive J where
  | null : J
  | bool : Bool → J
  | num : Int → J
  | numOther : String → J
  | str : String → J
  | arr : List J → J
  | obj : List (String × J) → J
deriving Repr, BEq

/-- Lowercase hexadecimal digit, as Go emits in control-character escapes. -/
def hexDigit (n : Nat) : Char :=
  if n < 10 then Char.ofNat (48 + n) else Char.ofNat (87 + n)

/-- The escaping encoding/json applies to one character of a string
literal (quote, backslash, the named control escapes, other control
characters, and the HTML characters Go escapes by default). -/
def escapeJsonChar (c : Char) : String :=
  if c = '"' then "\\\""
  else if c = '\\' then "\\\\"
  else if c = '\n' then "\\n"
  else if c = '\r' then "\\r"
  else if c = '\t' then "\\t"
  else if c.toNat < 32 then
    "\\u00" ++ String.singleton (hexDigit (c.toNat / 16)) ++ String.singleton (hexDigit (c.toNat % 16))
  else if c = '<' then "\\u003c"
  else if c = '>' then "\\u003e"
  else if c = '&' then "\\u0026"
  else String.singleton c

/-- A JSON string literal for s, as encoding/json writes it. -/
def jsonQuote (s : String) : String :=
  "\"" ++ String.join (s.toList.map escapeJsonChar) ++ "\""

mutual

/-- Serialization of a JSON value, following encoding/json (object members
in the order Go writes them: declaration order for structs, sorted key
order for maps — the callers below list members accordingly). -/
def serializeJ : J → String
  | J.null => "null"
  | J.bool b => if b then "true" else "false"
  | J.num n => toString n
  | J.numOther lit => lit
  | J.str s => jsonQuote s
  | J.arr l => "[" ++ serializeElems l ++ "]"
  | J.obj l => "\x7b" ++ serializeMembers l ++ "\x7d"

/-- Comma-separated serialization of array elements. -/
def serializeElems : List J → String
  | [] => ""
  | [j] => serializeJ j
  | j :: rest => serializeJ j ++ "," ++ serializeElems rest

/-- Comma-separated serialization of object members. -/
def serializeMembers : List (String × J) → String
  | [] => ""
  | [(k, v)] => jsonQuote k ++ ":" ++ serializeJ v
  | (k, v) :: rest => jsonQuote k ++ ":" ++ serializeJ v ++ "," ++ serializeMembers rest

end

/-- Skip JSON whitespace. -/
def skipWs : List Char → List Char
  | c :: cs => if c = ' ' ∨ c = '\t' ∨ c = '\n' ∨ c = '\r' then skipWs cs else c :: cs
  | [] => []

/-- Hexadecimal digit value of a character, if any. -/
def hexVal (c : Char) : Option Nat :=
  if '0' ≤ c ∧ c ≤ '9' then some (c.toNat - 48)
  else if 'a' ≤ c ∧ c ≤ 'f' then some (c.toNat - 87)
  else if 'A' ≤ c ∧ c ≤ 'F' then some (c.toNat - 70)
  else none

/-- Parse the body of a JSON string literal (after the opening quote),
returning the decoded string and the input after the closing quote. -/
def parseJString : List Char → Option (String × List Char)
  | [] => none
  | '"' :: rest => some ("", rest)
  | '\\' :: 'u' :: h1 :: h2 :: h3 :: h4 :: rest =>
    match hexVal h1, hexVal h2, hexVal h3, hexVal h4 with
    | some a, some b, some c, some d =>
      let code := ((a * 16 + b) * 16 + c) * 16 + d
      (parseJString rest).map (fun p => (String.singleton (Char.ofNat code) ++ p.1, p.2))
    | _, _, _, _ => none
  | '\\' :: e :: rest =>
    let dec : Option Char :=
      if e = '"' then some '"'
      else if e = '\\' then some '\\'
      else if e = '/' then some '/'
      else if e = 'b' then some (Char.ofNat 8)
      else if e = 'f' then some (Char.ofNat 12)
      else if e = 'n' then some '\n'
      else if e = 'r' then some '\r'
      else if e = 't' then some '\t'
      else none
    match dec with
    | some c => (parseJString rest).map (fun p => (String.singleton c ++ p.1, p.2))
    | none => none
  | c :: rest =>
    if c.toNat < 32 then none
    else (parseJString rest).map (fun p => (String.singleton c ++ p.1, p.2))

/-- Digit run at the head of the input. -/
def spanDigits (cs : List Char) : List Char × List Char :=
  (cs.takeWhile (fun c => '0' ≤ c ∧ c ≤ '9'), cs.dropWhile (fun c => '0' ≤ c ∧ c ≤ '9'))

/-- Numeric value of a digit run. -/
def digitsToNat (ds : List Char) : Nat :=
  ds.foldl (fun acc c => acc * 10 + (c.toNat - 48)) 0

/-- Parse a JSON number literal: integral literals become J.num, literals
with a fraction or exponent become J.numOther (they fail to decode into
the integer and string fields below, as in Go). -/
def parseJNumber (cs : List Char) : Option (J × List Char) :=
  let (neg, cs1) := match cs with
    | '-' :: rest => (true, rest)
    | _ => (false, cs)
  match spanDigits cs1 with
  | ([], _) => none
  | (ds, rest) =>
    let intPart : Int := Int.ofNat (digitsToNat ds)
    match rest with
    | '.' :: rest2 =>
      match spanDigits rest2 with
      | ([], _) => none
      | (fs, rest3) =>
        match rest3 with
        | 'e' :: rest4 => parseJExponent neg ds ('.' :: fs) rest4
        | 'E' :: rest4 => parseJExponent neg ds ('.' :: fs) rest4
        | _ =>
          some (J.numOther (String.mk ((if neg then ['-'] else []) ++ ds ++ '.' :: fs)), rest3)
    | 'e' :: rest2 => parseJExponent neg ds [] rest2
    | 'E' :: rest2 => parseJExponent neg ds [] rest2
    | _ => some (J.num (if neg then -intPart else intPart), rest)
where
  /-- Parse the exponent tail of a number literal. -/
  parseJExponent (neg : Bool) (ds frac : List Char) (cs : List Char) : Option (J × List Char) :=
    let (sign, cs1) := match cs with
      | '+' :: rest => (['+'], rest)
      | '-' :: rest => (['-'], rest)
      | _ => (([] : List Char), cs)
    match spanDigits cs1 with
    | ([], _) => none
    | (es, rest) =>
      some (J.numOther (String.mk ((if neg then ['-'] else []) ++ ds ++ frac ++ 'e' :: sign ++ es)), rest)

mutual

/-- Fuel-indexed JSON value parser. -/
def parseJ : Nat → List Char → Option (J × List Char)
  | 0, _ => none
  | fuel + 1, cs =>
    match skipWs cs with
    | 'n' :: 'u' :: 'l' :: 'l' :: rest => some (J.null, rest)
    | 't' :: 'r' :: 'u' :: 'e' :: rest => some (J.bool true, rest)
    | 'f' :: 'a' :: 'l' :: 's' :: 'e' :: rest => some (J.bool false, rest)
    | '"' :: rest => (parseJString rest).map (fun p => (J.str p.1, p.2))
    | '[' :: rest =>
      (match skipWs rest with
       | ']' :: rest2 => some (J.arr [], rest2)
       | _ => (parseArrItems fuel rest).map (fun p => (J.arr p.1, p.2)))
    | '\x7b' :: rest =>
      (match skipWs rest with
       | '\x7d' :: rest2 => some (J.obj [], rest2)
       | _ => (parseObjItems fuel rest).map (fun p => (J.obj p.1, p.2)))
    | other => parseJNumber other

/-- Parse the elements of a non-empty array, including the closing bracket. -/
def parseArrItems : Nat → List Char → Option (List J × List Char)
  | 0, _ => none
  | fuel + 1, cs =>
    match parseJ fuel cs with
    | none => none
    | some (v, rest) =>
      match skipWs rest with
      | ',' :: rest2 => (parseArrItems fuel rest2).map (fun p => (v :: p.1, p.2))
      | ']' :: rest2 => some ([v], rest2)
      | _ => none

/-- Parse the members of a non-empty object, including the closing brace. -/
def parseObjItems : Nat → List Char → Option (List (String × J) × List Char)
  | 0, _ => none
  | fuel + 1, cs =>
    match skipWs cs with
    | '"' :: rest =>
      match parseJString rest with
      | none => none
      | some (k, rest2) =>
        match skipWs rest2 with
        | ':' :: rest3 =>
          match parseJ fuel rest3 with
          | none => none
          | some (v, rest4) =>
            match skipWs rest4 with
            | ',' :: rest5 => (parseObjItems fuel rest5).map (fun p => ((k, v) :: p.1, p.2))
            | '\x7d' :: rest5 => some ([(k, v)], rest5)
            | _ => none
        | _ => none
    | _ => none

end

/-- Parse a whole JSON document, as json.Unmarshal does: one value,
nothing but whitespace after it. -/
def parseJson (s : String) : Option J :=
  match parseJ (2 * s.length + 2) s.toList with
  | some (j, rest) => if skipWs rest = [] then some j else none
  | none => none

/-- ASCII lowering of one character (the case folding of encoding/json's
key matching, restricted to ASCII). -/
def asciiLower (c : Char) : Char :=
  if 'A' ≤ c ∧ c ≤ 'Z' then Char.ofNat (c.toNat + 32) else c

/-- Case-insensitive key comparison: encoding/json matches an object key
to a struct field tag exactly or case-insensitively. -/
def eqFoldAscii (a b : String) : Bool :=
  a.toList.map asciiLower == b.toList.map asciiLower

/-- Decoding one JSON value into a string field holding cur: a string
replaces it, null leaves it unchanged, anything else is a type error. -/
def goDecodeStr (v : J) (cur : String) : Option String :=
  match v with
  | J.str s => some s
  | J.null => some cur
  | _ => none

/-- Decoding one JSON value into a bool field. -/
def goDecodeBool (v : J) (cur : Bool) : Option Bool :=
  match v with
  | J.bool b => some b
  | J.null => some cur
  | _ => none

/-- Decoding one JSON value into an int field: only integral literals
fit (Go rejects fractions and exponents for integer targets). -/
def goDecodeInt (v : J) (cur : Int) : Option Int :=
  match v with
  | J.num n => some n
  | J.null => some cur
  | _ => none

/-- MediaMetadata (flow_manager.go lines 302-309): the metadata response
for a media id. -/
structure MediaMetadata where
  messagingProduct : String
  url : String
  mimeType : String
  sha256 : String
  fileSize : Int
  id : String
deriving Repr, DecidableEq

/-- The zero value json.Unmarshal starts from. -/
def mediaMetadataZero : MediaMetadata :=
  { messagingProduct := "", url := "", mimeType := "", sha256 := "", fileSize := 0, id := "" }

/-- Folding the members of a metadata object into the struct, in order,
matching keys to field tags; unmatched keys are ignored. -/
def decodeMediaMetadataFields : List (String × J) → MediaMetadata → Option MediaMetadata
  | [], acc => some acc
  | (k, v) :: rest, acc =>
    if eqFoldAscii k "messaging_product" then
      (goDecodeStr v acc.messagingProduct).bind
        (fun x => decodeMediaMetadataFields rest { acc with messagingProduct := x })
    else if eqFoldAscii k "url" then
      (goDecodeStr v acc.url).bind (fun x => decodeMediaMetadataFields rest { acc with url := x })
    else if eqFoldAscii k "mime_type" then
      (goDecodeStr v acc.mimeType).bind (fun x => decodeMediaMetadataFields rest { acc with mimeType := x })
    else if eqFoldAscii k "sha256" then
      (goDecodeStr v acc.sha256).bind (fun x => decodeMediaMetadataFields rest { acc with sha256 := x })
    else if eqFoldAscii k "file_size" then
      (goDecodeInt v acc.fileSize).bind (fun x => decodeMediaMetadataFields rest { acc with fileSize := x })
    else if eqFoldAscii k "id" then
      (goDecodeStr v acc.id).bind (fun x => decodeMediaMetadataFields rest { acc with id := x })
    else decodeMediaMetadataFields rest acc

/-- json.Unmarshal of a JSON value into MediaMetadata. -/
def decodeMediaMetadataJ (j : J) : Option MediaMetadata :=
  match j with
  | J.null => some mediaMetadataZero
  | J.obj fields => decodeMediaMetadataFields fields mediaMetadataZero
  | _ => none

/-- json.Unmarshal of a raw body into MediaMetadata. -/
def decodeMediaMetadataStr (raw : String) : Option MediaMetadata :=
  (parseJson raw).bind decodeMediaMetadataJ

/-- DeleteSuccessResponse (flow_manager.go lines 334-336). -/
structure DeleteSuccessResponse where
  success : Bool
deriving Repr, DecidableEq

/-- Member folding for DeleteSuccessResponse. -/
def decodeDeleteSuccessFields : List (String × J) → DeleteSuccessResponse → Option DeleteSuccessResponse
  | [], acc => some acc
  | (k, v) :: rest, acc =>
    if eqFoldAscii k "success" then
      (goDecodeBool v acc.success).bind (fun x => decodeDeleteSuccessFields rest { acc with success := x })
    else decodeDeleteSuccessFields rest acc

/-- json.Unmarshal of a JSON value into DeleteSuccessResponse. -/
def decodeDeleteSuccessJ (j : J) : Option DeleteSuccessResponse :=
  match j with
  | J.null => some { success := false }
  | J.obj fields => decodeDeleteSuccessFields fields { success := false }
  | _ => none

/-- json.Unmarshal of a raw body into DeleteSuccessResponse. -/
def decodeDeleteSuccessStr (raw : String) : Option DeleteSuccessResponse :=
  (parseJson raw).bind decodeDeleteSuccessJ

/-- The anonymous response struct of UploadMedia (flow_manager.go lines
396-398): one string field tagged id. -/
structure UploadMediaIdResponse where
  id : String
deriving Repr, DecidableEq

/-- Member folding for UploadMediaIdResponse. -/
def decodeUploadMediaIdFields : List (String × J) → UploadMediaIdResponse → Option UploadMediaIdResponse
  | [], acc => some acc
  | (k, v) :: rest, acc =>
    if eqFoldAscii k "id" then
      (goDecodeStr v acc.id).bind (fun x => decodeUploadMediaIdFields rest { acc with id := x })
    else decodeUploadMediaIdFields rest acc

/-- json.Unmarshal of a JSON value into UploadMediaIdResponse. -/
def decodeUploadMediaIdJ (j : J) : Option UploadMediaIdResponse :=
  match j with
  | J.null => some { id := "" }
  | J.obj fields => decodeUploadMediaIdFields fields { id := "" }
  | _ => none

/-- json.Unmarshal of a raw body into UploadMediaIdResponse. -/
def decodeUploadMediaIdStr (raw : String) : Option UploadMediaIdResponse :=
  (parseJson raw).bind decodeUploadMediaIdJ

/-- ResumableUploadSession (flow_manager.go lines 411-413): the session
creation response, one string field tagged id. -/
structure ResumableUploadSession where
  id : String
deriving Repr, DecidableEq

/-- Member folding for ResumableUploadSession. -/
def decodeResumableSessionFields : List (String × J) → ResumableUploadSession → Option ResumableUploadSession
  | [], acc => some acc
  | (k, v) :: rest, acc =>
    if eqFoldAscii k "id" then
      (goDecodeStr v acc.id).bind (fun x => decodeResumableSessionFields rest { acc with id := x })
    else decodeResumableSessionFields rest acc

/-- json.Unmarshal of a JSON value into ResumableUploadSession. -/
def decodeResumableSessionJ (j : J) : Option ResumableUploadSession :=
  match j with
  | J.null => some { id := "" }
  | J.obj fields => decodeResumableSessionFields fields { id := "" }
  | _ => none

/-- json.Unmarshal of a raw body into ResumableUploadSession. -/
def decodeResumableSessionStr (raw : String) : Option ResumableUploadSession :=
  (parseJson raw).bind decodeResumableSessionJ

/-- ResumableUploadResult (flow_manager.go lines 416-418): the data-push
response, one string field tagged h. -/
structure ResumableUploadResult where
  handle : String
deriving Repr, DecidableEq

/-- Member folding for ResumableUploadResult. -/
def decodeResumableResultFields : List (String × J) → ResumableUploadResult → Option ResumableUploadResult
  | [], acc => some acc
  | (k, v) :: rest, acc =>
    if eqFoldAscii k "h" then
      (goDecodeStr v acc.handle).bind (fun x => decodeResumableResultFields rest { acc with handle := x })
    else decodeResumableResultFields rest acc

/-- json.Unmarshal of a JSON value into ResumableUploadResult. -/
def decodeResumableResultJ (j : J) : Option ResumableUploadResult :=
  match j with
  | J.null => some { handle := "" }
  | J.obj fields => decodeResumableResultFields fields { handle := "" }
  | _ => none

/-- json.Unmarshal of a raw body into ResumableUploadResult. -/
def decodeResumableResultStr (raw : String) : Option ResumableUploadResult :=
  (parseJson raw).bind decodeResumableResultJ

/-- FlowValidationError (flow_manager.go lines 38-46 and part_001 lines
40-48): one validation error of an uploaded flow asset. -/
structure FlowValidationError where
  error : String
  errorType : String
  message : String
  lineStart : Int
  lineEnd : Int
  columnStart : Int
  columnEnd : Int
deriving Repr, DecidableEq

/-- The zero value of FlowValidationError. -/
def flowValidationErrorZero : FlowValidationError :=
  { error := "", errorType := "", message := "", lineStart := 0, lineEnd := 0,
    columnStart := 0, columnEnd := 0 }

/-- Member folding for FlowValidationError. -/
def decodeFVEFields : List (String × J) → FlowValidationError → Option FlowValidationError
  | [], acc => some acc
  | (k, v) :: rest, acc =>
    if eqFoldAscii k "error" then
      (goDecodeStr v acc.error).bind (fun x => decodeFVEFields rest { acc with error := x })
    else if eqFoldAscii k "error_type" then
      (goDecodeStr v acc.errorType).bind (fun x => decodeFVEFields rest { acc with errorType := x })
    else if eqFoldAscii k "message" then
      (goDecodeStr v acc.message).bind (fun x => decodeFVEFields rest { acc with message := x })
    else if eqFoldAscii k "line_start" then
      (goDecodeInt v acc.lineStart).bind (fun x => decodeFVEFields rest { acc with lineStart := x })
    else if eqFoldAscii k "line_end" then
      (goDecodeInt v acc.lineEnd).bind (fun x => decodeFVEFields rest { acc with lineEnd := x })
    else if eqFoldAscii k "column_start" then
      (goDecodeInt v acc.columnStart).bind (fun x => decodeFVEFields rest { acc with columnStart := x })
    else if eqFoldAscii k "column_end" then
      (goDecodeInt v acc.columnEnd).bind (fun x => decodeFVEFields rest { acc with columnEnd := x })
    else decodeFVEFields rest acc

/-- json.Unmarshal of a JSON value into FlowValidationError. -/
def decodeFVEJ (j : J) : Option FlowValidationError :=
  match j with
  | J.null => some flowValidationErrorZero
  | J.obj fields => decodeFVEFields fields flowValidationErrorZero
  | _ => none

/-- json.Unmarshal of a JSON array value into a FlowValidationError
slice: an array decodes elementwise, null leaves the slice unchanged,
anything else is a type error. -/
def goDecodeFVEList (v : J) (cur : List FlowValidationError) : Option (List FlowValidationError) :=
  match v with
  | J.arr l => l.mapM decodeFVEJ
  | J.null => some cur
  | _ => none

/-- UploadFlowJSONResponse (part_001 lines 199-202): the asset-upload
response of the multipart UploadFlowJSON. -/
structure UploadFlowJSONResponse where
  success : Bool
  validationErrors : List FlowValidationError
deriving Repr, DecidableEq

/-- Member folding for UploadFlowJSONResponse. -/
def decodeUploadFlowRespFields : List (String × J) → UploadFlowJSONResponse → Option UploadFlowJSONResponse
  | [], acc => some acc
  | (k, v) :: rest, acc =>
    if eqFoldAscii k "success" then
      (goDecodeBool v acc.success).bind (fun x => decodeUploadFlowRespFields rest { acc with success := x })
    else if eqFoldAscii k "validation_errors" then
      (goDecodeFVEList v acc.validationErrors).bind
        (fun x => decodeUploadFlowRespFields rest { acc with validationErrors := x })
    else decodeUploadFlowRespFields rest acc

/-- json.Unmarshal of a JSON value into UploadFlowJSONResponse. -/
def decodeUploadFlowRespJ (j : J) : Option UploadFlowJSONResponse :=
  match j with
  | J.null => some { success := false, validationErrors := [] }
  | J.obj fields => decodeUploadFlowRespFields fields { success := false, validationErrors := [] }
  | _ => none

/-- json.Unmarshal of a raw body into UploadFlowJSONResponse. -/
def decodeUploadFlowRespStr (raw : String) : Option UploadFlowJSONResponse :=
  (parseJson raw).bind decodeUploadFlowRespJ

/-- CreateFlowResponse (flow_manager.go lines 109-113): the response type
the JSON-body UploadFlowJSON of manager/flow_manager.go decodes into. -/
structure CreateFlowResponse where
  id : String
  success : Bool
  validationErrors : List FlowValidationError
deriving Repr, DecidableEq

/-- Member folding for CreateFlowResponse. -/
def decodeCreateFlowRespFields : List (String × J) → CreateFlowResponse → Option CreateFlowResponse
  | [], acc => some acc
  | (k, v) :: rest, acc =>
    if eqFoldAscii k "id" then
      (goDecodeStr v acc.id).bind (fun x => decodeCreateFlowRespFields rest { acc with id := x })
    else if eqFoldAscii k "success" then
      (goDecodeBool v acc.success).bind (fun x => decodeCreateFlowRespFields rest { acc with success := x })
    else if eqFoldAscii k "validation_errors" then
      (goDecodeFVEList v acc.validationErrors).bind
        (fun x => decodeCreateFlowRespFields rest { acc with validationErrors := x })
    else decodeCreateFlowRespFields rest acc

/-- json.Unmarshal of a JSON value into CreateFlowResponse. -/
def decodeCreateFlowRespJ (j : J) : Option CreateFlowResponse :=
  match j with
  | J.null => some { id := "", success := false, validationErrors := [] }
  | J.obj fields => decodeCreateFlowRespFields fields { id := "", success := false, validationErrors := [] }
  | _ => none

/-- json.Unmarshal of a raw body into CreateFlowResponse. -/
def decodeCreateFlowRespStr (raw : String) : Option CreateFlowResponse :=
  (parseJson raw).bind decodeCreateFlowRespJ

/-- Errors as the operations produce them: a transport-layer failure, a
json.Unmarshal failure (its stdlib detail abstracted), a fmt.Errorf
message (carrying the interpolated text, raw bodies included), and
fmt.Errorf wrapping of a cause with a context message, as a
percent-w format directive produces. -/
inductive Err where
  | transport : String → Err
  | decode : Err
  | msg : String → Err
  | wrap : String → Err → Err
deriving Repr, DecidableEq

/-- A request built through the request_client's default builder:
NewApiRequest fixes path and method, SetBody the body, AddQueryParam the
query parameters. -/
structure ApiRequest where
  path : String
  method : String
  body : String
  queryParams : List (String × String)
deriving Repr, DecidableEq

/-- Modelled from the spec: NewApiRequest of the request_client
collaborator (not under src/) — a named call against the remote API with
an initially empty body and no query parameters. -/
def NewApiRequest (path method : String) : ApiRequest :=
  { path := path, method := method, body := "", queryParams := [] }

/-- One part of a multipart form: its MIME header fields (in the order
mime/multipart writes them) and its content. -/
structure MultipartPart where
  header : List (String × String)
  content : String
deriving Repr, DecidableEq

/-- A multipart request as handed to the collaborator's RequestMultipart:
method, path, the form's parts, and the content type.  Go's
FormDataContentType appends a random boundary parameter to the media
type; the boundary is not modelled, only the media type is kept. -/
structure MultipartRequest where
  method : String
  path : String
  parts : List MultipartPart
  contentType : String
deriving Repr, DecidableEq

/-- The raw HTTP request UploadResumableMedia builds itself, bypassing
the default builder: full URL, method, headers as set on it, and the raw
(non-JSON) body. -/
structure RawHttpRequest where
  url : String
  method : String
  headers : List (String × String)
  body : String
deriving Repr, DecidableEq

/-- A raw HTTP response: status code and body text. -/
structure HttpResponse where
  status : Nat
  body : String
deriving Repr, DecidableEq

/-- Modelled from the spec: the process-wide transport configuration
(request protocol scheme, base URL, API version) of the request_client
package (not under src/), plus the requester's access token, passed as
an explicit configuration value as the spec's design note directs. -/
structure TransportConfig where
  requestProtocol : String
  baseUrl : String
  apiVersion : String
  apiAccessToken : String
deriving Repr, DecidableEq

/-- Modelled from the spec: the RequestExecutor collaborator (the
request_client package, not under src/).  Each oracle consumes the
transport state and returns the raw response body (or a raw status-code
response for the self-built resumable push) and the next state; a
transport failure of the push also covers a failed read of the response
body. -/
structure Transport (σ : Type) where
  execute : σ → ApiRequest → Except Err String × σ
  requestMultipart : σ → MultipartRequest → Except Err String × σ
  rawHttp : σ → RawHttpRequest → Except Err HttpResponse × σ

/-- The escaping mime/multipart applies to field and file names inside a
Content-Disposition value (backslash and quote). -/
def quoteEscape (s : String) : String :=
  String.join (s.toList.map (fun c =>
    if c = '\\' then "\\\\" else if c = '"' then "\\\"" else String.singleton c))

/-- multipart.Writer.WriteField: a part whose Content-Disposition names
the field and whose content is the value. -/
def writeFieldPart (fieldname value : String) : MultipartPart :=
  { header := [("Content-Disposition", "form-data; name=\"" ++ quoteEscape fieldname ++ "\"")],
    content := value }

/-- multipart.Writer.CreateFormFile: a part with a file
Content-Disposition and the octet-stream content type (header fields in
the sorted order the writer emits). -/
def createFormFilePart (fieldname filename content : String) : MultipartPart :=
  { header := [("Content-Disposition",
        "form-data; name=\"" ++ quoteEscape fieldname ++ "\"; filename=\"" ++ quoteEscape filename ++ "\""),
      ("Content-Type", "application/octet-stream")],
    content := content }

/-- filepath.Base on slash-separated paths: empty path gives a dot, then
trailing slashes are dropped, then everything up to the last slash; a
path of only slashes gives a slash. -/
def filepathBase (p : String) : String :=
  if p = "" then "." else
  let r := p.toList.reverse.dropWhile (fun c => c = '/')
  if r = [] then "/" else String.mk (r.takeWhile (fun c => ¬ (c = '/'))).reverse

/-- First value of a header field in a header list, if present. -/
def headerLookup (h : List (String × String)) (key : String) : Option String :=
  match h.find? (fun kv => kv.1 = key) with
  | some kv => some kv.2
  | none => none

/-- The GET request GetMediaUrlById builds (flow_manager.go line 313):
the path is the media id itself. -/
def mediaMetadataRequest (id : String) : ApiRequest :=
  NewApiRequest id "GET"

/-- GetMediaUrlById (flow_manager.go lines 311-332), over an abstract
transport with state s, returning the Go-style (string, error) pair and
the next transport state. -/
def GetMediaUrlById {σ : Type} (t : Transport σ) (s : σ) (id : String) :
    (String × Option Err) × σ :=
  match t.execute s (mediaMetadataRequest id) with
  | (Except.error e, s1) => (("", some e), s1)
  | (Except.ok rawResponse, s1) =>
    match decodeMediaMetadataStr rawResponse with
    | none => (("", some (Err.wrap "failed to parse media metadata" Err.decode)), s1)
    | some res =>
      if res.url = "" then
        (("", some (Err.msg ("no media url found in response: " ++ rawResponse))), s1)
      else ((res.url, none), s1)

/-- The DELETE request DeleteMedia builds (flow_manager.go line 340):
path media/<id>. -/
def deleteMediaRequest (id : String) : ApiRequest :=
  NewApiRequest ("media/" ++ id) "DELETE"

/-- DeleteMedia (flow_manager.go lines 338-358). -/
def DeleteMedia {σ : Type} (t : Transport σ) (s : σ) (id : String) :
    (String × Option Err) × σ :=
  match t.execute s (deleteMediaRequest id) with
  | (Except.error e, s1) => (("", some e), s1)
  | (Except.ok rawResponse, s1) =>
    match decodeDeleteSuccessStr rawResponse with
    | none => (("", some (Err.wrap "failed to parse delete response" Err.decode)), s1)
    | some res =>
      if ¬ res.success then
        (("", some (Err.msg ("media deletion failed or returned success=false: " ++ rawResponse))), s1)
      else (("media deleted successfully", none), s1)

/-- The multipart form UploadMedia builds (flow_manager.go lines
362-385): the messaging_product field, then the file part whose header
is set by hand — Content-Disposition with name file and the basename of
the supplied filename, and Content-Type the supplied MIME type. -/
def uploadMediaForm (file filename mimeType : String) : List MultipartPart :=
  [ writeFieldPart "messaging_product" "whatsapp",
    { header := [("Content-Disposition",
          "form-data; name=\"file\"; filename=\"" ++ filepathBase filename ++ "\""),
        ("Content-Type", mimeType)],
      content := file } ]

/-- The multipart POST UploadMedia issues (flow_manager.go lines
387-391): path <phoneNumberId>/media. -/
def uploadMediaRequest (phoneNumberId file filename mimeType : String) : MultipartRequest :=
  { method := "POST", path := phoneNumberId ++ "/media",
    parts := uploadMediaForm file filename mimeType,
    contentType := "multipart/form-data" }

/-- UploadMedia (flow_manager.go lines 361-408).  The file reader is
modelled by its content; the in-memory form construction over a byte
buffer cannot fail, so its error returns are not reachable in the
model. -/
def UploadMedia {σ : Type} (t : Transport σ) (s : σ)
    (phoneNumberId file filename mimeType : String) : (String × Option Err) × σ :=
  match t.requestMultipart s (uploadMediaRequest phoneNumberId file filename mimeType) with
  | (Except.error e, s1) => (("", some (Err.wrap "error uploading media" e)), s1)
  | (Except.ok responseBody, s1) =>
    match decodeUploadMediaIdStr responseBody with
    | none => (("", some (Err.wrap "failed to parse JSON response" Err.decode)), s1)
    | some result =>
      if result.id = "" then
        (("", some (Err.msg ("no media id in response: " ++ responseBody))), s1)
      else ((result.id, none), s1)

/-- The session-creation POST CreateResumableUploadSession builds
(flow_manager.go lines 425-438): path <appID>/uploads and a JSON body
that is the marshalling of a two-entry map — exactly the members
file_length and file_type, in Go's sorted map-key order. -/
def sessionRequest (appID : String) (fileLength : Int) (fileType : String) : ApiRequest :=
  { NewApiRequest (appID ++ "/uploads") "POST" with
    body := serializeJ (J.obj [("file_length", J.num fileLength), ("file_type", J.str fileType)]) }

/-- CreateResumableUploadSession (flow_manager.go lines 424-455).  The
marshal-failure return is unreachable: a map of a string and an integer
always marshals. -/
def CreateResumableUploadSession {σ : Type} (t : Transport σ) (s : σ)
    (appID : String) (fileLength : Int) (fileType : String) : (String × Option Err) × σ :=
  match t.execute s (sessionRequest appID fileLength fileType) with
  | (Except.error e, s1) => (("", some (Err.wrap "failed to create upload session" e)), s1)
  | (Except.ok rawResponse, s1) =>
    match decodeResumableSessionStr rawResponse with
    | none => (("", some (Err.wrap "failed to parse upload session response" Err.decode)), s1)
    | some result =>
      if result.id = "" then
        (("", some (Err.msg ("no upload session ID in response: " ++ rawResponse))), s1)
      else ((result.id, none), s1)

/-- The raw request UploadResumableMedia builds itself (flow_manager.go
lines 465-478): URL <protocol>://<base>/<version>/<sessionID>, POST, the
raw file bytes as the body, an OAuth-scheme Authorization header, and a
file_offset header holding the decimal form of the offset. -/
def resumableUploadRequest (cfg : TransportConfig) (sessionID fileData : String)
    (fileOffset : Int) : RawHttpRequest :=
  { url := cfg.requestProtocol ++ "://" ++ cfg.baseUrl ++ "/" ++ cfg.apiVersion ++ "/" ++ sessionID,
    method := "POST",
    headers := [("Authorization", "OAuth " ++ cfg.apiAccessToken),
      ("file_offset", toString fileOffset)],
    body := fileData }

/-- UploadResumableMedia (flow_manager.go lines 461-506). -/
def UploadResumableMedia {σ : Type} (cfg : TransportConfig) (t : Transport σ) (s : σ)
    (sessionID fileData : String) (fileOffset : Int) : (String × Option Err) × σ :=
  match t.rawHttp s (resumableUploadRequest cfg sessionID fileData fileOffset) with
  | (Except.error e, s1) => (("", some (Err.wrap "failed to execute upload request" e)), s1)
  | (Except.ok response, s1) =>
    if response.status < 200 ∨ 300 ≤ response.status then
      (("", some (Err.msg ("upload failed with status " ++ toString response.status ++ ": " ++ response.body))), s1)
    else
      match decodeResumableResultStr response.body with
      | none => (("", some (Err.wrap "failed to parse upload response" Err.decode)), s1)
      | some result =>
        if result.handle = "" then
          (("", some (Err.msg ("no media handle in response: " ++ response.body))), s1)
        else ((result.handle, none), s1)

/-- UploadMediaForTemplate (flow_manager.go lines 511-525): session
creation with the payload's byte length, then the push of the full
payload at offset 0, each failure wrapped with its context message.  The
payload is a byte string; its Go length is its UTF-8 byte size. -/
def UploadMediaForTemplate {σ : Type} (cfg : TransportConfig) (t : Transport σ) (s : σ)
    (appID fileData fileType : String) : (String × Option Err) × σ :=
  match CreateResumableUploadSession t s appID (Int.ofNat fileData.utf8ByteSize) fileType with
  | ((_, some e), s1) => (("", some (Err.wrap "failed to create upload session" e)), s1)
  | ((sessionID, none), s1) =>
    match UploadResumableMedia cfg t s1 sessionID fileData 0 with
    | ((_, some e), s2) => (("", some (Err.wrap "failed to upload media" e)), s2)
    | ((handle, none), s2) => ((handle, none), s2)

/-- The three-field multipart form the UploadFlowJSON of
src/unnamed/part_001 builds (lines 207-233): a name field holding
flow.json, an asset_type field holding FLOW_JSON, and the document
content as a file part. -/
def uploadFlowJSONForm (flowJSON : String) : List MultipartPart :=
  [ writeFieldPart "name" "flow.json",
    writeFieldPart "asset_type" "FLOW_JSON",
    createFormFilePart "file" "flow.json" flowJSON ]

/-- The multipart POST the UploadFlowJSON of src/unnamed/part_001 issues
(lines 236-242): path <flowID>/assets. -/
def uploadFlowJSONRequest (flowID flowJSON : String) : MultipartRequest :=
  { method := "POST", path := flowID ++ "/assets",
    parts := uploadFlowJSONForm flowJSON,
    contentType := "multipart/form-data" }

/-- UploadFlowJSON of src/unnamed/part_001 (lines 206-253): the
multipart implementation.  The in-memory writer calls cannot fail over a
byte buffer, so their error returns are unreachable in the model. -/
def UploadFlowJSON {σ : Type} (t : Transport σ) (s : σ) (flowID flowJSON : String) :
    (Option UploadFlowJSONResponse × Option Err) × σ :=
  match t.requestMultipart s (uploadFlowJSONRequest flowID flowJSON) with
  | (Except.error e, s1) => ((none, some (Err.wrap "failed to upload flow JSON" e)), s1)
  | (Except.ok response, s1) =>
    match decodeUploadFlowRespStr response with
    | none => ((none, some (Err.wrap "failed to unmarshal response" Err.decode)), s1)
    | some result => ((some result, none), s1)

/-- The request the UploadFlowJSON of src/manager/flow_manager.go builds
(lines 202-219): the same <flowID>/assets POST path, but through the
default JSON builder, with the body the marshalling of
UploadFlowJSONRequest — a JSON object with the members name, asset_type
and file in struct declaration order. -/
def uploadFlowJSONJsonBodyRequest (flowID flowJSON : String) : ApiRequest :=
  { NewApiRequest (flowID ++ "/assets") "POST" with
    body := serializeJ (J.obj
      [("name", J.str "flow.json"), ("asset_type", J.str "FLOW_JSON"), ("file", J.str flowJSON)]) }

/-- UploadFlowJSON of src/manager/flow_manager.go (lines 202-231): the
JSON-body implementation, decoding into CreateFlowResponse. -/
def UploadFlowJSONJsonBody {σ : Type} (t : Transport σ) (s : σ) (flowID flowJSON : String) :
    (Option CreateFlowResponse × Option Err) × σ :=
  match t.execute s (uploadFlowJSONJsonBodyRequest flowID flowJSON) with
  | (Except.error e, s1) => ((none, some e), s1)
  | (Except.ok response, s1) =>
    match decodeCreateFlowRespStr response with
    | none => ((none, some (Err.wrap "failed to unmarshal response" Err.decode)), s1)
    | some result => ((some result, none), s1)

/-- The GET request GetFlowJSON builds (part_001 lines 283-286, and
identically flow_manager.go lines 261-264): path <flowID>/assets. -/
def flowAssetsRequest (flowID : String) : ApiRequest :=
  NewApiRequest (flowID ++ "/assets") "GET"

/-- GetFlowJSON (part_001 lines 282-294): a plain GET returning the raw
response text unparsed. -/
def GetFlowJSON {σ : Type} (t : Transport σ) (s : σ) (flowID : String) :
    (String × Option Err) × σ :=
  match t.execute s (flowAssetsRequest flowID) with
  | (Except.error e, s1) => (("", some e), s1)
  | (Except.ok response, s1) => ((response, none), s1)

/-- A request as observed by the recording transport. -/
inductive Sent where
  | api : ApiRequest → Sent
  | multi : MultipartRequest → Sent
  | raw : RawHttpRequest → Sent
deriving Repr, DecidableEq

/-- A transport that records every request it is handed and answers each
kind with a fixed canned response: it makes the requests an operation
issues observable in the final state. -/
def recordingTransport (resp : Except Err String) (rawResp : Except Err HttpResponse) :
    Transport (List Sent) :=
  { execute := fun s r => (resp, s ++ [Sent.api r]),
    requestMultipart := fun s r => (resp, s ++ [Sent.multi r]),
    rawHttp := fun s r => (rawResp, s ++ [Sent.raw r]) }

/-- First stored document for a path in the echo store. -/
def lookupStore : List (String × String) → String → Option String
  | [], _ => none
  | (p, doc) :: rest, path => if p = path then some doc else lookupStore rest path

/-- Decides whether the first character list is a prefix of the second. -/
def charsPrefixOf : List Char → List Char → Bool
  | [], _ => true
  | _ :: _, [] => false
  | p :: ps, c :: cs => p = c && charsPrefixOf ps cs

/-- The document content carried by the file part of a multipart form:
the content of the first part whose Content-Disposition names the file
field. -/
def formFileContent (parts : List MultipartPart) : String :=
  match parts.find? (fun part =>
    charsPrefixOf ("form-data; name=\"file\"").toList
      (((headerLookup part.header "Content-Disposition").getD "").toList)) with
  | some part => part.content
  | none => ""

/-- The faithful-echo mock transport of the spec's round-trip property:
a multipart POST stores the posted document content under the request
path and acknowledges with a success body, and a GET returns exactly the
content previously stored for its path. -/
def echoTransport : Transport (List (String × String)) :=
  { execute := fun store r =>
      if r.method = "GET" then
        match lookupStore store r.path with
        | some doc => (Except.ok doc, store)
        | none => (Except.error (Err.transport "no such asset"), store)
      else (Except.error (Err.transport "unsupported"), store),
    requestMultipart := fun store r =>
      if r.method = "POST" then
        (Except.ok "\x7b\"success\":true\x7d", (r.path, formFileContent r.parts) :: store)
      else (Except.error (Err.transport "unsupported"), store),
    rawHttp := fun store _ => (Except.error (Err.transport "unsupported"), store) }

/-- Modelled from the spec: the manual two-step sequence of the
refinement property — CreateResumableUploadSession with the payload's
length followed by UploadResumableMedia of the full payload at offset 0,
propagating the first error encountered as is. -/
def specManualUploadSequence {σ : Type} (cfg : TransportConfig) (t : Transport σ) (s : σ)
    (appID fileData fileType : String) : (String × Option Err) × σ :=
  match CreateResumableUploadSession t s appID (Int.ofNat fileData.utf8ByteSize) fileType with
  | ((_, some e), s1) => (("", some e), s1)
  | ((sessionID, none), s1) => UploadResumableMedia cfg t s1 sessionID fileData 0

/-- A concrete transport configuration for concrete evaluations. -/
def cfgW : TransportConfig :=
  { requestProtocol := "https", baseUrl := "graph.example", apiVersion := "v19.0",
    apiAccessToken := "tok" }

/-- A recording transport whose every call fails at the transport layer. -/
def downTransport : Transport (List Sent) :=
  recordingTransport (Except.error (Err.transport "down")) (Except.error (Err.transport "down"))

/-- A recording transport answering every call with the given body (and
the given status on the raw path). -/
def okTransport (status : Nat) (body : String) : Transport (List Sent) :=
  recordingTransport (Except.ok body) (Except.ok { status := status, body := body })

theorem getMediaUrlById_err_empty {σ : Type} (t : Transport σ) (s : σ) (id : String) :
    (GetMediaUrlById t s id).1.2 ≠ none → (GetMediaUrlById t s id).1.1 = "" := by
  unfold GetMediaUrlById
  rcases he : t.execute s (mediaMetadataRequest id) with ⟨er | raw, s1⟩
  · simp
  · rcases hd : decodeMediaMetadataStr raw with _ | res
    · simp [hd]
    · by_cases hu : res.url = "" <;> simp [hd, hu]

theorem deleteMedia_err_empty {σ : Type} (t : Transport σ) (s : σ) (id : String) :
    (DeleteMedia t s id).1.2 ≠ none → (DeleteMedia t s id).1.1 = "" := by
  unfold DeleteMedia
  rcases he : t.execute s (deleteMediaRequest id) with ⟨er | raw, s1⟩
  · simp
  · rcases hd : decodeDeleteSuccessStr raw with _ | res
    · simp [hd]
    · by_cases hs : res.success <;> simp [hd, hs]

theorem uploadMedia_err_empty {σ : Type} (t : Transport σ) (s : σ)
    (pid file filename mime : String) :
    (UploadMedia t s pid file filename mime).1.2 ≠ none →
      (UploadMedia t s pid file filename mime).1.1 = "" := by
  unfold UploadMedia
  rcases he : t.requestMultipart s (uploadMediaRequest pid file filename mime) with ⟨er | raw, s1⟩
  · simp
  · rcases hd : decodeUploadMediaIdStr raw with _ | res
    · simp [hd]
    · by_cases hi : res.id = "" <;> simp [hd, hi]

theorem createSession_err_empty {σ : Type} (t : Transport σ) (s : σ)
    (appID : String) (n : Int) (fileType : String) :
    (CreateResumableUploadSession t s appID n fileType).1.2 ≠ none →
      (CreateResumableUploadSession t s appID n fileType).1.1 = "" := by
  unfold CreateResumableUploadSession
  rcases he : t.execute s (sessionRequest appID n fileType) with ⟨er | raw, s1⟩
  · simp
  · rcases hd : decodeResumableSessionStr raw with _ | res
    · simp [hd]
    · by_cases hi : res.id = "" <;> simp [hd, hi]

theorem uploadResumable_err_empty {σ : Type} (cfg : TransportConfig) (t : Transport σ) (s : σ)
    (sid d : String) (off : Int) :
    (UploadResumableMedia cfg t s sid d off).1.2 ≠ none →
      (UploadResumableMedia cfg t s sid d off).1.1 = "" := by
  unfold UploadResumableMedia
  rcases he : t.rawHttp s (resumableUploadRequest cfg sid d off) with ⟨er | resp, s1⟩
  · simp
  · by_cases hst : resp.status < 200 ∨ 300 ≤ resp.status
    · simp [hst]
    · rcases hd : decodeResumableResultStr resp.body with _ | res
      · simp [hst, hd]
      · by_cases hh : res.handle = "" <;> simp [hst, hd, hh]

theorem uploadForTemplate_err_empty {σ : Type} (cfg : TransportConfig) (t : Transport σ) (s : σ)
    (appID d fileType : String) :
    (UploadMediaForTemplate cfg t s appID d fileType).1.2 ≠ none →
      (UploadMediaForTemplate cfg t s appID d fileType).1.1 = "" := by
  unfold UploadMediaForTemplate
  rcases hc : CreateResumableUploadSession t s appID (Int.ofNat d.utf8ByteSize) fileType
    with ⟨⟨sid, _ | e⟩, s1⟩
  · rcases hu : UploadResumableMedia cfg t s1 sid d 0 with ⟨⟨h, _ | e2⟩, s2⟩ <;> simp [hu]
  · simp

/-- Claim C1: for every app id, payload and MIME type, the convenience
UploadMediaForTemplate agrees with the manual sequence (session creation
with the payload's length, then the push of the full payload at offset
0, over the same transport): same handle string, same transport trace,
success exactly together, and on failure its error wraps the first error
of the manual sequence with the context message of the failing step. -/
theorem uploadMediaForTemplate_refines_manual {σ : Type} (cfg : TransportConfig) (t : Transport σ)
    (s : σ) (appID fileData fileType : String) :
    (UploadMediaForTemplate cfg t s appID fileData fileType).1.1
        = (specManualUploadSequence cfg t s appID fileData fileType).1.1
    ∧ (UploadMediaForTemplate cfg t s appID fileData fileType).2
        = (specManualUploadSequence cfg t s appID fileData fileType).2
    ∧ ((UploadMediaForTemplate cfg t s appID fileData fileType).1.2 = none
        ↔ (specManualUploadSequence cfg t s appID fileData fileType).1.2 = none)
    ∧ (∀ e, (specManualUploadSequence cfg t s appID fileData fileType).1.2 = some e →
        (UploadMediaForTemplate cfg t s appID fileData fileType).1.2
            = some (Err.wrap "failed to create upload session" e)
        ∨ (UploadMediaForTemplate cfg t s appID fileData fileType).1.2
            = some (Err.wrap "failed to upload media" e)) := by
  unfold UploadMediaForTemplate specManualUploadSequence
  rcases hc : CreateResumableUploadSession t s appID (Int.ofNat fileData.utf8ByteSize) fileType
    with ⟨⟨sid, _ | e⟩, s1⟩
  · rcases hu : UploadResumableMedia cfg t s1 sid fileData 0 with ⟨⟨h, _ | e2⟩, s2⟩
    · simp [hu]
    · have hempty : h = "" := by
        have hx := uploadResumable_err_empty cfg t s1 sid fileData 0
        rw [hu] at hx
        simpa using hx
      subst hempty
      simp [hu]
  · simp

/-- Closed check of claim C1's theorem at a concrete input: with a
transport that is down, the manual sequence's first error is the wrapped
transport error of session creation and the composed call wraps exactly
that error. -/
theorem uploadMediaForTemplate_refines_manual_witness :
    (specManualUploadSequence cfgW downTransport [] "A1" "DATA" "image/png").1.2
        = some (Err.wrap "failed to create upload session" (Err.transport "down"))
    ∧ ((UploadMediaForTemplate cfgW downTransport [] "A1" "DATA" "image/png").1.2
        = some (Err.wrap "failed to create upload session"
            (Err.wrap "failed to create upload session" (Err.transport "down")))
      ∨ (UploadMediaForTemplate cfgW downTransport [] "A1" "DATA" "image/png").1.2
        = some (Err.wrap "failed to upload media"
            (Err.wrap "failed to create upload session" (Err.transport "down")))) :=
  ⟨rfl,
    (uploadMediaForTemplate_refines_manual cfgW downTransport [] "A1" "DATA" "image/png").2.2.2
      (Err.wrap "failed to create upload session" (Err.transport "down")) rfl⟩

/-- Claim C10: for every string-returning MediaManager operation, a
non-nil returned error comes with the empty string as the returned
value — no partial or stale result accompanies an error. -/
theorem stringResult_error_implies_empty {σ : Type} (cfg : TransportConfig) (t : Transport σ)
    (s : σ) (id pid file filename mime sid d appID fileType : String) (off n : Int) :
    ((GetMediaUrlById t s id).1.2 ≠ none → (GetMediaUrlById t s id).1.1 = "")
    ∧ ((DeleteMedia t s id).1.2 ≠ none → (DeleteMedia t s id).1.1 = "")
    ∧ ((UploadMedia t s pid file filename mime).1.2 ≠ none →
        (UploadMedia t s pid file filename mime).1.1 = "")
    ∧ ((UploadResumableMedia cfg t s sid d off).1.2 ≠ none →
        (UploadResumableMedia cfg t s sid d off).1.1 = "")
    ∧ ((CreateResumableUploadSession t s appID n fileType).1.2 ≠ none →
        (CreateResumableUploadSession t s appID n fileType).1.1 = "")
    ∧ ((UploadMediaForTemplate cfg t s appID d fileType).1.2 ≠ none →
        (UploadMediaForTemplate cfg t s appID d fileType).1.1 = "") :=
  ⟨getMediaUrlById_err_empty t s id,
   deleteMedia_err_empty t s id,
   uploadMedia_err_empty t s pid file filename mime,
   uploadResumable_err_empty cfg t s sid d off,
   createSession_err_empty t s appID n fileType,
   uploadForTemplate_err_empty cfg t s appID d fileType⟩

/-- Closed check of claim C10's theorem at a concrete input: against a
down transport GetMediaUrlById errors, and the theorem yields the empty
returned string. -/
theorem stringResult_error_implies_empty_witness :
    (GetMediaUrlById downTransport [] "m1").1.2 ≠ none
    ∧ (GetMediaUrlById downTransport [] "m1").1.1 = "" :=
  ⟨by decide,
    (stringResult_error_implies_empty cfgW downTransport [] "m1" "p1" "DATA" "a.png" "image/png"
      "sess" "DATA" "A1" "image/png" 0 4).1 (by decide)⟩

/-- Claim C3: UploadResumableMedia errors exactly when the transport
fails, the status is outside 2xx (the body captured in the error), the
body does not decode, or the decoded response lacks a non-empty handle;
otherwise it returns the handle (and the transport's next state). -/
theorem uploadResumableMedia_error_iff {σ : Type} (cfg : TransportConfig) (t : Transport σ)
    (s : σ) (sid d : String) (off : Int) :
    ((UploadResumableMedia cfg t s sid d off).1.2 = none ↔
      ∃ resp s1, t.rawHttp s (resumableUploadRequest cfg sid d off) = (Except.ok resp, s1)
        ∧ 200 ≤ resp.status ∧ resp.status < 300
        ∧ ∃ result, decodeResumableResultStr resp.body = some result ∧ result.handle ≠ "")
    ∧ (∀ resp s1 result,
        t.rawHttp s (resumableUploadRequest cfg sid d off) = (Except.ok resp, s1) →
        200 ≤ resp.status → resp.status < 300 →
        decodeResumableResultStr resp.body = some result → result.handle ≠ "" →
        UploadResumableMedia cfg t s sid d off = ((result.handle, none), s1))
    ∧ (∀ resp s1,
        t.rawHttp s (resumableUploadRequest cfg sid d off) = (Except.ok resp, s1) →
        resp.status < 200 ∨ 300 ≤ resp.status →
        (UploadResumableMedia cfg t s sid d off).1.2
          = some (Err.msg ("upload failed with status " ++ toString resp.status ++ ": " ++ resp.body))) := by
  unfold UploadResumableMedia
  rcases hr : t.rawHttp s (resumableUploadRequest cfg sid d off) with ⟨er | resp, s1⟩
  · refine ⟨by simp, ?_, ?_⟩
    · intro resp2 s2 result2 heq
      simp at heq
    · intro resp2 s2 heq
      simp at heq
  · by_cases hst : resp.status < 200 ∨ 300 ≤ resp.status
    · refine ⟨by simp [hst]; omega, ?_, ?_⟩
      · intro resp2 s2 result2 heq h200 h300 hdec hne
        simp at heq
        rcases heq with ⟨rfl, rfl⟩
        omega
      · intro resp2 s2 heq hout
        simp at heq
        rcases heq with ⟨rfl, rfl⟩
        simp [hst]
    · rcases hd : decodeResumableResultStr resp.body with _ | result
      · refine ⟨by simp [hst, hd], ?_, ?_⟩
        · intro resp2 s2 result2 heq h200 h300 hdec hne
          simp at heq
          rcases heq with ⟨rfl, rfl⟩
          rw [hd] at hdec
          simp at hdec
        · intro resp2 s2 heq hout
          simp at heq
          rcases heq with ⟨rfl, rfl⟩
          omega
      · by_cases hh : result.handle = ""
        · refine ⟨?_, ?_, ?_⟩
          · simp only [hst, if_false, hd, hh]
            constructor
            · intro hfalse
              simp [hh] at hfalse
            · rintro ⟨resp2, s2, heq, h200, h300, result2, hdec, hne⟩
              simp at heq
              rcases heq with ⟨rfl, rfl⟩
              rw [hd] at hdec
              simp at hdec
              subst hdec
              exact absurd hh hne
          · intro resp2 s2 result2 heq h200 h300 hdec hne
            simp at heq
            rcases heq with ⟨rfl, rfl⟩
            rw [hd] at hdec
            simp at hdec
            subst hdec
            exact absurd hh hne
          · intro resp2 s2 heq hout
            simp at heq
            rcases heq with ⟨rfl, rfl⟩
            omega
        · refine ⟨?_, ?_, ?_⟩
          · simp only [hst, if_false, hd, hh]
            constructor
            · intro _
              exact ⟨resp, s1, rfl, by omega, by omega, result, hd, hh⟩
            · intro _
              simp [hh]
          · intro resp2 s2 result2 heq h200 h300 hdec hne
            simp at heq
            rcases heq with ⟨rfl, rfl⟩
            rw [hd] at hdec
            simp at hdec
            subst hdec
            simp [hst, hd, hh]
          · intro resp2 s2 heq hout
            simp at heq
            rcases heq with ⟨rfl, rfl⟩
            omega

/-- Closed check of claim C3's theorem at a concrete input: a 404
response makes the push fail with the status and the response body in
the error. -/
theorem uploadResumableMedia_error_iff_witness :
    (UploadResumableMedia cfgW (okTransport 404 "nope") [] "sess" "DATA" 0).1.2
      = some (Err.msg ("upload failed with status " ++ toString 404 ++ ": " ++ "nope")) :=
  (uploadResumableMedia_error_iff cfgW (okTransport 404 "nope") [] "sess" "DATA" 0).2.2
    { status := 404, body := "nope" }
    [Sent.raw (resumableUploadRequest cfgW "sess" "DATA" 0)] rfl (by decide)

/-- Claim C4: on a response that decodes as media metadata,
GetMediaUrlById errors (with the raw body in the message) when the url
field decoded empty — absent or empty on the wire — and returns the url
when it is non-empty; an empty string is never a success value. -/
theorem getMediaUrlById_url_required {σ : Type} (t : Transport σ) (s : σ) (id raw : String)
    (s1 : σ) (md : MediaMetadata)
    (he : t.execute s (mediaMetadataRequest id) = (Except.ok raw, s1))
    (hd : decodeMediaMetadataStr raw = some md) :
    (md.url = "" →
      GetMediaUrlById t s id
        = (("", some (Err.msg ("no media url found in response: " ++ raw))), s1))
    ∧ (md.url ≠ "" → GetMediaUrlById t s id = ((md.url, none), s1)) := by
  unfold GetMediaUrlById
  rw [he]
  simp only [hd]
  constructor
  · intro hu
    simp [hu]
  · intro hu
    simp [hu]

/-- Closed check of claim C4's theorem at a concrete input: a well-formed
metadata response without a url field yields the ProtocolError-style
failure, not an empty-string success. -/
theorem getMediaUrlById_url_required_witness :
    GetMediaUrlById (okTransport 200 "\x7b\"id\":\"m1\"\x7d") [] "m1"
      = (("", some (Err.msg ("no media url found in response: " ++ "\x7b\"id\":\"m1\"\x7d"))),
         [Sent.api (mediaMetadataRequest "m1")]) :=
  (getMediaUrlById_url_required (okTransport 200 "\x7b\"id\":\"m1\"\x7d") [] "m1"
      "\x7b\"id\":\"m1\"\x7d" [Sent.api (mediaMetadataRequest "m1")]
      { mediaMetadataZero with id := "m1" } rfl (by decide)).1 rfl

/-- Claim C5: on a response that decodes as a delete acknowledgement,
DeleteMedia reports success only for success true, and surfaces success
false as an error carrying the raw response body. -/
theorem deleteMedia_success_flag {σ : Type} (t : Transport σ) (s : σ) (id raw : String)
    (s1 : σ) (res : DeleteSuccessResponse)
    (he : t.execute s (deleteMediaRequest id) = (Except.ok raw, s1))
    (hd : decodeDeleteSuccessStr raw = some res) :
    (res.success = false →
      DeleteMedia t s id
        = (("", some (Err.msg ("media deletion failed or returned success=false: " ++ raw))), s1))
    ∧ (res.success = true → DeleteMedia t s id = (("media deleted successfully", none), s1)) := by
  unfold DeleteMedia
  rw [he]
  simp only [hd]
  constructor
  · intro hs
    simp [hs]
  · intro hs
    simp [hs]

/-- Closed check of claim C5's theorem at a concrete input: a response
with success false is rejected with the raw body in the error. -/
theorem deleteMedia_success_flag_witness :
    DeleteMedia (okTransport 200 "\x7b\"success\":false\x7d") [] "m1"
      = (("", some (Err.msg
            ("media deletion failed or returned success=false: " ++ "\x7b\"success\":false\x7d"))),
         [Sent.api (deleteMediaRequest "m1")]) :=
  (deleteMedia_success_flag (okTransport 200 "\x7b\"success\":false\x7d") [] "m1"
      "\x7b\"success\":false\x7d" [Sent.api (deleteMediaRequest "m1")]
      { success := false } rfl (by decide)).1 rfl

/-- Counterexample to claim C6 as stated: at a concrete input the
multipart form UploadMedia builds has two parts — the product-identifier
field and the file part — not three. -/
theorem uploadMedia_form_not_three_parts :
    (uploadMediaRequest "p1" "DATA" "pics/a.png" "image/png").parts.length = 2
    ∧ ¬ ((uploadMediaRequest "p1" "DATA" "pics/a.png" "image/png").parts.length = 3) := by
  constructor <;> decide

/-- Claim C6 as amended: UploadMedia constructs a multipart form with
two parts — the fixed product-identifier field, and the payload part
carrying a Content-Disposition with name file and the basename of the
supplied filename and a Content-Type equal to the supplied MIME type —
and issues exactly one POST, to <phoneNumberId>/media. -/
theorem uploadMedia_form_spec (pid file filename mime : String)
    (resp : Except Err String) (rawResp : Except Err HttpResponse) :
    (UploadMedia (recordingTransport resp rawResp) [] pid file filename mime).2
        = [Sent.multi (uploadMediaRequest pid file filename mime)]
    ∧ (uploadMediaRequest pid file filename mime).method = "POST"
    ∧ (uploadMediaRequest pid file filename mime).path = pid ++ "/media"
    ∧ (uploadMediaRequest pid file filename mime).parts
        = [ writeFieldPart "messaging_product" "whatsapp",
            { header := [("Content-Disposition",
                  "form-data; name=\"file\"; filename=\"" ++ filepathBase filename ++ "\""),
                ("Content-Type", mime)],
              content := file } ] := by
  refine ⟨?_, rfl, rfl, rfl⟩
  unfold UploadMedia recordingTransport
  rcases resp with e | raw
  · simp
  · rcases hd : decodeUploadMediaIdStr raw with _ | res
    · simp [hd]
    · by_cases hi : res.id = "" <;> simp [hd, hi]

/-- Claim C7: the raw request UploadResumableMedia sends — and it sends
exactly that one request — carries the payload bytes unencoded as its
body, an Authorization header of the OAuth form, and a file_offset
header holding the decimal string of the offset. -/
theorem uploadResumableMedia_raw_request (cfg : TransportConfig) (sid d : String) (off : Int)
    (resp : Except Err String) (rawResp : Except Err HttpResponse) :
    (UploadResumableMedia cfg (recordingTransport resp rawResp) [] sid d off).2
        = [Sent.raw (resumableUploadRequest cfg sid d off)]
    ∧ (resumableUploadRequest cfg sid d off).body = d
    ∧ (resumableUploadRequest cfg sid d off).method = "POST"
    ∧ headerLookup (resumableUploadRequest cfg sid d off).headers "Authorization"
        = some ("OAuth " ++ cfg.apiAccessToken)
    ∧ headerLookup (resumableUploadRequest cfg sid d off).headers "file_offset"
        = some (toString off) := by
  refine ⟨?_, rfl, rfl, rfl, rfl⟩
  unfold UploadResumableMedia recordingTransport
  rcases rawResp with e | r
  · simp
  · by_cases hst : r.status < 200 ∨ 300 ≤ r.status
    · simp [hst]
    · rcases hd : decodeResumableResultStr r.body with _ | res
      · simp [hst, hd]
      · by_cases hh : res.handle = "" <;> simp [hst, hd, hh]

/-- Claim C2 against both implementations in the repository, at a
concrete input: the UploadFlowJSON of src/manager/flow_manager.go issues
its POST through the JSON request builder with a serialized JSON object
as the body, while the UploadFlowJSON of src/unnamed/part_001 issues a
multipart POST whose form has the three fields of the claim, to the
path flowID/assets. -/
theorem uploadFlowJSON_json_body_divergence :
    (UploadFlowJSONJsonBody (okTransport 200 "\x7b\"success\":true\x7d") [] "f1" "\x7b\x7d").2
        = [Sent.api (uploadFlowJSONJsonBodyRequest "f1" "\x7b\x7d")]
    ∧ (uploadFlowJSONJsonBodyRequest "f1" "\x7b\x7d").body
        = serializeJ (J.obj [("name", J.str "flow.json"), ("asset_type", J.str "FLOW_JSON"),
            ("file", J.str "\x7b\x7d")])
    ∧ (uploadFlowJSONJsonBodyRequest "f1" "\x7b\x7d").body
        = "\x7b\"name\":\"flow.json\",\"asset_type\":\"FLOW_JSON\",\"file\":\"\x7b\x7d\"\x7d"
    ∧ (UploadFlowJSON (okTransport 200 "\x7b\"success\":true\x7d") [] "f1" "\x7b\x7d").2
        = [Sent.multi (uploadFlowJSONRequest "f1" "\x7b\x7d")]
    ∧ (uploadFlowJSONRequest "f1" "\x7b\x7d").parts
        = [writeFieldPart "name" "flow.json", writeFieldPart "asset_type" "FLOW_JSON",
           createFormFilePart "file" "flow.json" "\x7b\x7d"]
    ∧ (uploadFlowJSONRequest "f1" "\x7b\x7d").path = "f1/assets" := by
  refine ⟨rfl, rfl, rfl, rfl, rfl, rfl⟩

/-- Claim C8: CreateResumableUploadSession issues exactly one POST, to
<appID>/uploads, whose JSON body is the serialization of an object with
exactly the members file_length and file_type; it errors exactly when no
non-empty session id decodes from the response — issuing no further
request — and returns the decoded session id otherwise. -/
theorem createSession_spec (appID : String) (n : Int) (fileType : String) :
    (∀ (resp : Except Err String) (rawResp : Except Err HttpResponse),
      (CreateResumableUploadSession (recordingTransport resp rawResp) [] appID n fileType).2
        = [Sent.api (sessionRequest appID n fileType)])
    ∧ (sessionRequest appID n fileType).method = "POST"
    ∧ (sessionRequest appID n fileType).path = appID ++ "/uploads"
    ∧ (sessionRequest appID n fileType).body
        = serializeJ (J.obj [("file_length", J.num n), ("file_type", J.str fileType)])
    ∧ (∀ {σ : Type} (t : Transport σ) (s : σ),
        ((CreateResumableUploadSession t s appID n fileType).1.2 = none ↔
          ∃ raw s1 result, t.execute s (sessionRequest appID n fileType) = (Except.ok raw, s1)
            ∧ decodeResumableSessionStr raw = some result ∧ result.id ≠ ""))
    ∧ (∀ {σ : Type} (t : Transport σ) (s : σ) (raw : String) (s1 : σ)
          (result : ResumableUploadSession),
        t.execute s (sessionRequest appID n fileType) = (Except.ok raw, s1) →
        decodeResumableSessionStr raw = some result → result.id ≠ "" →
        CreateResumableUploadSession t s appID n fileType = ((result.id, none), s1)) := by
  refine ⟨?_, rfl, rfl, rfl, ?_, ?_⟩
  · intro resp rawResp
    unfold CreateResumableUploadSession recordingTransport
    rcases resp with e | raw
    · simp
    · rcases hd : decodeResumableSessionStr raw with _ | res
      · simp [hd]
      · by_cases hi : res.id = "" <;> simp [hd, hi]
  · intro σ t s
    unfold CreateResumableUploadSession
    rcases hr : t.execute s (sessionRequest appID n fileType) with ⟨er | raw, s1⟩
    · simp
    · rcases hd : decodeResumableSessionStr raw with _ | res
      · simp [hd]
      · by_cases hi : res.id = ""
        · simp only [hd, hi, if_true]
          constructor
          · intro hfalse
            simp at hfalse
          · rintro ⟨raw2, s2, result2, heq, hdec, hne⟩
            injection heq with h1 h2
            injection h1 with h3
            subst h3
            rw [hd] at hdec
            injection hdec with h4
            subst h4
            exact absurd hi hne
        · simp only [hd, hi, if_false]
          constructor
          · intro _
            exact ⟨raw, s1, res, rfl, hd, hi⟩
          · intro _
            simp
  · intro σ t s raw s1 result heq hdec hne
    unfold CreateResumableUploadSession
    rw [heq]
    simp [hdec, hne]

/-- Closed check of claim C8's theorem at a concrete input: a response
holding a session id makes the call return the id, after the single
session-creation POST. -/
theorem createSession_spec_witness :
    CreateResumableUploadSession (okTransport 200 "\x7b\"id\":\"sess_123\"\x7d") [] "A1"
        1024 "image/png"
      = (("sess_123", none), [Sent.api (sessionRequest "A1" 1024 "image/png")]) :=
  (createSession_spec "A1" 1024 "image/png").2.2.2.2.2
    (okTransport 200 "\x7b\"id\":\"sess_123\"\x7d") [] "\x7b\"id\":\"sess_123\"\x7d"
    [Sent.api (sessionRequest "A1" 1024 "image/png")] { id := "sess_123" } rfl (by decide)
    (by decide)

set_option maxRecDepth 100000 in
/-- Claim C9: over the faithful-echo transport, UploadFlowJSON of a
document succeeds (the echo acknowledges with a success body) and a
subsequent GetFlowJSON on the same flow id returns exactly that
document, byte for byte, unparsed, from any starting store. -/
theorem flow_asset_roundtrip (store : List (String × String)) (flowID doc : String) :
    (UploadFlowJSON echoTransport store flowID doc).1
        = (some { success := true, validationErrors := [] }, none)
    ∧ GetFlowJSON echoTransport (UploadFlowJSON echoTransport store flowID doc).2 flowID
        = ((doc, none), (UploadFlowJSON echoTransport store flowID doc).2) := by
  have hup : (UploadFlowJSON echoTransport store flowID doc).2
      = (flowID ++ "/assets", doc) :: store := rfl
  refine ⟨rfl, ?_⟩
  rw [hup]
  simp [GetFlowJSON, echoTransport, flowAssetsRequest, NewApiRequest, lookupStore]

/-- Closed check of claim C6's amended theorem at a concrete input: one
multipart POST is issued, carrying the two-part form. -/
theorem uploadMedia_form_spec_witness :
    (UploadMedia (recordingTransport (Except.ok "\x7b\"id\":\"med_1\"\x7d")
        (Except.error (Err.transport "unused"))) [] "p1" "DATA" "pics/a.png" "image/png").2
      = [Sent.multi (uploadMediaRequest "p1" "DATA" "pics/a.png" "image/png")] :=
  (uploadMedia_form_spec "p1" "DATA" "pics/a.png" "image/png"
    (Except.ok "\x7b\"id\":\"med_1\"\x7d") (Except.error (Err.transport "unused"))).1

/-- Closed check of claim C7's theorem at a concrete input: the
file_offset header of the request built for offset 7 holds the decimal
string of 7. -/
theorem uploadResumableMedia_raw_request_witness :
    headerLookup (resumableUploadRequest cfgW "sess" "DATA" 7).headers "file_offset"
      = some (toString (7 : Int)) :=
  (uploadResumableMedia_raw_request cfgW "sess" "DATA" 7
    (Except.ok "") (Except.error (Err.transport "unused"))).2.2.2.2

/-- Closed check of claim C9's theorem at a concrete input. -/
theorem flow_asset_roundtrip_witness :
    (UploadFlowJSON echoTransport [] "f1" "\x7b\"v\":1\x7d").1
        = (some { success := true, validationErrors := [] }, none)
    ∧ GetFlowJSON echoTransport (UploadFlowJSON echoTransport [] "f1" "\x7b\"v\":1\x7d").2 "f1"
        = (("\x7b\"v\":1\x7d", none), (UploadFlowJSON echoTransport [] "f1" "\x7b\"v\":1\x7d").2) :=
  flow_asset_roundtrip [] "f1" "\x7b\"v\":1\x7d"

end Wapi
